import Mathlib

set_option maxRecDepth 8000

/-!
Shallow embedding of `src/auth.py` (authentication and session management
for the Streamlit app).

Modelling conventions:
* `hashlib.sha256(...).hexdigest()` is embedded as a full executable SHA-256
  over `Nat` machine words (32-bit arithmetic is explicit `% 2^32`); strings
  are UTF-8 encoded exactly as Python's `str.encode()` does.
* The module-level dict `_USERS : {username: sha256_hash}` becomes the map
  `USERS : String → Option String`; `verify_user` takes the credential map
  as an explicit argument (state passing), with `USERS` the shipped value.
* The module-level dict `_SESSION_STORE : {token: session}` becomes
  `Store = String → Option SessionRec`; each stateful function takes the
  store and returns the updated store (state passing).
* `uuid.uuid4()` and `datetime.now()` are nondeterministic oracles: the
  generated token string and the current time are passed as parameters.
  Timestamps are abstracted to `Nat` in hours, so
  `timedelta(hours=h)` is `h` and the comparison `datetime.now() > expires_at`
  is `expires_at < now`.
* `SESSION_DURATION_HOURS` is a configuration constant (default 24); the
  session duration is the first argument of `create_session` so that the
  configured value (including the duration-0 scenario from the spec) can be
  instantiated.
-/

namespace StreamlitAuth

/-! ## SHA-256 (embedding of `hashlib.sha256(...).hexdigest()`) -/

def w32 : Nat := 4294967296

def add32 (a b : Nat) : Nat := (a + b) % w32

def rotr32 (n x : Nat) : Nat := ((x >>> n) ||| (x <<< (32 - n))) % w32

def ch32 (x y z : Nat) : Nat := (x &&& y) ^^^ ((x ^^^ 4294967295) &&& z)

def maj32 (x y z : Nat) : Nat := (x &&& y) ^^^ (x &&& z) ^^^ (y &&& z)

def bigSigma0 (x : Nat) : Nat := rotr32 2 x ^^^ rotr32 13 x ^^^ rotr32 22 x

def bigSigma1 (x : Nat) : Nat := rotr32 6 x ^^^ rotr32 11 x ^^^ rotr32 25 x

def smallSigma0 (x : Nat) : Nat := rotr32 7 x ^^^ rotr32 18 x ^^^ (x >>> 3)

def smallSigma1 (x : Nat) : Nat := rotr32 17 x ^^^ rotr32 19 x ^^^ (x >>> 10)

def K256 : List Nat :=
  [1116352408, 1899447441, 3049323471, 3921009573, 961987163, 1508970993,
   2453635748, 2870763221, 3624381080, 310598401, 607225278, 1426881987,
   1925078388, 2162078206, 2614888103, 3248222580, 3835390401, 4022224774,
   264347078, 604807628, 770255983, 1249150122, 1555081692, 1996064986,
   2554220882, 2821834349, 2952996808, 3210313671, 3336571891, 3584528711,
   113926993, 338241895, 666307205, 773529912, 1294757372, 1396182291,
   1695183700, 1986661051, 2177026350, 2456956037, 2730485921, 2820302411,
   3259730800, 3345764771, 3516065817, 3600352804, 4094571909, 275423344,
   430227734, 506948616, 659060556, 883997877, 958139571, 1322822218,
   1537002063, 1747873779, 1955562222, 2024104815, 2227730452, 2361852424,
   2428436474, 2756734187, 3204031479, 3329325298]

def H0256 : List Nat :=
  [1779033703, 3144134277, 1013904242, 2773480762,
   1359893119, 2600822924, 528734635, 1541459225]

def utf8EncodeChar (c : Char) : List Nat :=
  let n := c.toNat
  if n < 128 then [n]
  else if n < 2048 then [192 ||| (n >>> 6), 128 ||| (n &&& 63)]
  else if n < 65536 then
    [224 ||| (n >>> 12), 128 ||| ((n >>> 6) &&& 63), 128 ||| (n &&& 63)]
  else
    [240 ||| (n >>> 18), 128 ||| ((n >>> 12) &&& 63),
     128 ||| ((n >>> 6) &&& 63), 128 ||| (n &&& 63)]

def utf8Bytes (s : String) : List Nat := (s.data.map utf8EncodeChar).flatten

def lenBytes64 (n : Nat) : List Nat :=
  [(n >>> 56) % 256, (n >>> 48) % 256, (n >>> 40) % 256, (n >>> 32) % 256,
   (n >>> 24) % 256, (n >>> 16) % 256, (n >>> 8) % 256, n % 256]

def padMessage (msg : List Nat) : List Nat :=
  msg ++ 128 :: List.replicate ((119 - msg.length % 64) % 64) 0
      ++ lenBytes64 (8 * msg.length)

def bytesToWords : List Nat → List Nat
  | b0 :: b1 :: b2 :: b3 :: rest =>
      (b0 * 16777216 + b1 * 65536 + b2 * 256 + b3) :: bytesToWords rest
  | _ => []

def extendW : Nat → List Nat → List Nat
  | 0, acc => acc.reverse
  | n + 1, acc =>
      extendW n (add32 (add32 (smallSigma1 (acc.getD 1 0)) (acc.getD 6 0))
                   (add32 (smallSigma0 (acc.getD 14 0)) (acc.getD 15 0)) :: acc)

def roundStep (st : List Nat) (kw : Nat × Nat) : List Nat :=
  match st with
  | [a, b, c, d, e, f, g, h] =>
      let t1 := add32 h (add32 (bigSigma1 e) (add32 (ch32 e f g) (add32 kw.1 kw.2)))
      let t2 := add32 (bigSigma0 a) (maj32 a b c)
      [add32 t1 t2, a, b, c, add32 d t1, e, f, g]
  | other => other

def compress (hs : List Nat) (block : List Nat) : List Nat :=
  let sched := extendW 48 block.reverse
  let st := (K256.zip sched).foldl roundStep hs
  (hs.zip st).map fun p => add32 p.1 p.2

def sha256Blocks : Nat → List Nat → List Nat → List Nat
  | 0, hs, _ => hs
  | n + 1, hs, ws => sha256Blocks n (compress hs (ws.take 16)) (ws.drop 16)

def hexDigit (n : Nat) : Char :=
  if n < 10 then Char.ofNat (48 + n) else Char.ofNat (87 + n)

def wordHex (w : Nat) : List Char :=
  [hexDigit ((w >>> 28) % 16), hexDigit ((w >>> 24) % 16),
   hexDigit ((w >>> 20) % 16), hexDigit ((w >>> 16) % 16),
   hexDigit ((w >>> 12) % 16), hexDigit ((w >>> 8) % 16),
   hexDigit ((w >>> 4) % 16), hexDigit (w % 16)]

def sha256hex (s : String) : String :=
  let ws := bytesToWords (padMessage (utf8Bytes s))
  String.mk ((sha256Blocks (ws.length / 16) H0256 ws).map wordHex).flatten

/-- Known-answer test: SHA-256 of the empty string matches the reference
digest, confirming the embedding agrees with `hashlib.sha256`. -/
theorem sha256hex_empty :
    sha256hex "" =
      "e3b0c44298fc1c149afbf4c8996fb92427ae41e4649b934ca495991b7852b855" := by
  decide

/-- Known-answer test: SHA-256 of "test1" (the shipped test password)
matches the reference digest produced by `hashlib.sha256`. -/
theorem sha256hex_test1 :
    sha256hex "test1" =
      "1b4f0e9851971998e732078544c96b36c3d01cedf7caa332359d6f1d83567014" := by
  decide

/-! ## Credential store and `verify_user` (src/auth.py lines 38-46, 93-111) -/

/-- Credential store type: simulates the `users` table
`{ username: sha256_password_hash }`, embedded as a map. -/
abbrev UsersStore : Type := String → Option String

/-- The shipped module-level `_USERS` dict of src/auth.py. -/
def USERS : UsersStore := fun u =>
  if u = "test1" then some (sha256hex "test1")
  else if u = "test2" then some (sha256hex "test2")
  else none

/-- Embedding of `verify_user(username, password)`: hashes the supplied
password with SHA-256 and compares against the stored hash; `None` lookup
gives `False`. The credential store is passed explicitly (state passing for
the module-level `_USERS`); the function is pure — it returns only a `Bool`
and no store, so it can mutate nothing, and determinism is immediate. -/
def verify_user (users : UsersStore) (username password : String) : Bool :=
  let password_hash := sha256hex password
  match users username with
  | none => false
  | some stored_hash => stored_hash == password_hash

/-! ## Session store and session lifecycle (src/auth.py lines 29, 48-58, 114-180) -/

/-- Configuration constant `SESSION_DURATION_HOURS = 24`. -/
def SESSION_DURATION_HOURS : Nat := 24

/-- A row of the simulated `sessions` table:
`{"username": str, "created_at": datetime, "expires_at": datetime}`;
timestamps abstracted to `Nat`. -/
structure SessionRec where
  username : String
  created_at : Nat
  expires_at : Nat
  deriving DecidableEq

/-- Session store type: the module-level `_SESSION_STORE` dict
`{token: session-row}`, embedded as a map. -/
abbrev Store : Type := String → Option SessionRec

/-- Dict key removal (`del d[token]` / `d.pop(token, None)`). -/
def eraseS (token : String) (s : Store) : Store :=
  fun k => if k = token then none else s k

/-- Embedding of `create_session(username)`. The UUID4 token and
`datetime.now()` are oracle inputs (`token`, `now`); the configured
`SESSION_DURATION_HOURS` is the `duration` argument. The function stores
`{"username": username, "created_at": now, "expires_at": now + duration}`
under `token` — unconditionally, exactly as `_SESSION_STORE[token] = {...}`
does — and returns the token together with the updated store. -/
def create_session (duration : Nat) (token username : String) (now : Nat)
    (s : Store) : String × Store :=
  (token, fun k =>
    if k = token then
      some { username := username, created_at := now, expires_at := now + duration }
    else s k)

/-- Embedding of `validate_session(token)`, with `datetime.now()` passed as
`now`. `if not token` is `token = ""` (the only falsy `str`);
`datetime.now() > session["expires_at"]` is `expires_at < now`; the expired
branch performs `del _SESSION_STORE[token]`. Returns the `Optional[str]`
result together with the (possibly updated) store. -/
def validate_session (now : Nat) (token : String) (s : Store) :
    Option String × Store :=
  if token = "" then (none, s)
  else
    match s token with
    | none => (none, s)
    | some session =>
      if session.expires_at < now then (none, eraseS token s)
      else (some session.username, s)

/-- Embedding of `destroy_session(token)`: `_SESSION_STORE.pop(token, None)`
(the log line has no store effect). -/
def destroy_session (token : String) (s : Store) : Store :=
  eraseS token s

/-! ## Concrete stores used to instantiate theorems on concrete inputs -/

/-- The empty session store (the initial value of `_SESSION_STORE`). -/
def emptyStore : Store := fun _ => none

/-- A one-entry session store: token "tok" owned by "alice", valid on the
time window [1, 25]. -/
def storeAlice : Store :=
  fun k => if k = "tok" then some ⟨"alice", 1, 25⟩ else none

/-- A credential store whose stored value for "alice" is not the SHA-256
hash of any password used in the tests. -/
def usersBad : UsersStore :=
  fun u => if u = "alice" then some "nothash" else none

/-- A credential store holding a credential under the empty username. -/
def usersEmptyName : UsersStore :=
  fun u => if u = "" then some (sha256hex "pw") else none

/-! ## Claim theorems -/

/-- C1 counterexample: `create_session` performs no collision check. On the
store holding token "t0" owned by "alice", a `create_session` call whose
freshly generated token is again "t0" silently overwrites alice's session
with bob's: the previously inserted, non-destroyed session is no longer
present with its original owner, contradicting the claim that a collision
is detected and retried. -/
theorem c1_counterexample :
    (create_session 24 "t0" "bob" 5
        (fun k => if k = "t0" then some ⟨"alice", 0, 24⟩ else none)).2 "t0"
      = some ⟨"bob", 5, 29⟩
    ∧ (create_session 24 "t0" "bob" 5
        (fun k => if k = "t0" then some ⟨"alice", 0, 24⟩ else none)).2 "t0"
      ≠ some ⟨"alice", 0, 24⟩ := by
  constructor
  · decide
  · decide

/-- C1 (amended): `create_session` checks nothing and inserts its freshly
generated token unconditionally, returning that token. Whenever the
generated token is fresh (not already a key of the store) — which is the
only case reachable with UUID4 tokens in practice — every other entry of
the store is untouched, so all previously inserted, non-destroyed sessions
remain present with their original owner; on a colliding token the existing
session is overwritten (no detection, no regeneration). -/
theorem c1_create_inserts_unconditionally :
    ∀ (d : Nat) (token u : String) (now : Nat) (s : Store),
      (create_session d token u now s).1 = token
      ∧ (create_session d token u now s).2 token
          = some { username := u, created_at := now, expires_at := now + d }
      ∧ (∀ t, t ≠ token → (create_session d token u now s).2 t = s t) := by
  intro d token u now s
  refine ⟨rfl, ?_, ?_⟩
  · simp [create_session]
  · intro t ht
    simp [create_session, ht]

/-- Witness for C1's amended theorem at concrete inputs: creating "bob"
under fresh token "t0" leaves the absent key "s1" absent. -/
theorem c1_witness :
    ("s1" : String) ≠ "t0"
    ∧ (create_session 24 "t0" "bob" 5 emptyStore).2 "s1" = emptyStore "s1" :=
  ⟨by decide,
   (c1_create_inserts_unconditionally 24 "t0" "bob" 5 emptyStore).2.2 "s1"
     (by decide)⟩

/-- C2: for a session present in the store under a (nonempty, as every
UUID4-generated token is) token, `validate_session` returns the owning
username at every time `t` with `created_at ≤ t ≤ expires_at` (the code in
fact returns it for every `t ≤ expires_at`), and returns `none` (absent)
at every time `t > expires_at`. -/
theorem c2_expiry_window :
    ∀ (s : Store) (token : String) (r : SessionRec) (t : Nat),
      s token = some r →
      (token ≠ "" → r.created_at ≤ t → t ≤ r.expires_at →
        (validate_session t token s).1 = some r.username)
      ∧ (r.expires_at < t → (validate_session t token s).1 = none) := by
  intro s token r t hlook
  constructor
  · intro hne _ hle
    simp [validate_session, hne, hlook, Nat.not_lt.mpr hle]
  · intro hlt
    by_cases hne : token = ""
    · simp [validate_session, hne]
    · simp [validate_session, hne, hlook, hlt]

/-- Witness for C2 at concrete inputs: "alice"'s session on window [1, 25]
validates to "alice" at time 5 and to absent at time 30. -/
theorem c2_witness :
    storeAlice "tok" = some ⟨"alice", 1, 25⟩
    ∧ (validate_session 5 "tok" storeAlice).1 = some "alice"
    ∧ (validate_session 30 "tok" storeAlice).1 = none :=
  ⟨by decide,
   (c2_expiry_window storeAlice "tok" ⟨"alice", 1, 25⟩ 5 (by decide)).1
     (by decide) (by decide) (by decide),
   (c2_expiry_window storeAlice "tok" ⟨"alice", 1, 25⟩ 30 (by decide)).2
     (by decide)⟩

/-- C4: `validate_session` on the empty token returns absent and leaves the
store untouched (the `if not token` guard fires before any lookup), and on
a non-empty token that is not a key of the store it returns absent and
leaves the store unchanged; being a total function, it raises nothing. -/
theorem c4_invalid_token :
    (∀ (s : Store) (t : Nat), validate_session t "" s = (none, s))
    ∧ (∀ (s : Store) (token : String) (t : Nat),
        s token = none → validate_session t token s = (none, s)) := by
  constructor
  · intro s t
    simp [validate_session]
  · intro s token t hlook
    by_cases hne : token = ""
    · simp [validate_session, hne]
    · simp [validate_session, hne, hlook]

/-- Witness for C4 at the spec's concrete input: the unknown cookie value
"not-a-real-token" validates to absent with no store mutation. -/
theorem c4_witness :
    emptyStore "not-a-real-token" = none
    ∧ validate_session 7 "not-a-real-token" emptyStore = (none, emptyStore) :=
  ⟨rfl, c4_invalid_token.2 emptyStore "not-a-real-token" 7 rfl⟩

/-- C9: `destroy_session` is idempotent (destroying twice equals destroying
once, the second call a no-op), is a no-op — never an error — on an unknown
token, removes the entry for its token, and touches no other key. -/
theorem c9_destroy_idempotent :
    ∀ (token : String) (s : Store),
      destroy_session token (destroy_session token s) = destroy_session token s
      ∧ (s token = none → destroy_session token s = s)
      ∧ destroy_session token s token = none
      ∧ (∀ t, t ≠ token → destroy_session token s t = s t) := by
  intro token s
  refine ⟨?_, ?_, ?_, ?_⟩
  · funext k
    by_cases h : k = token <;> simp [destroy_session, eraseS, h]
  · intro hmiss
    funext k
    by_cases h : k = token <;> simp [destroy_session, eraseS, h, hmiss]
  · simp [destroy_session, eraseS]
  · intro t ht
    simp [destroy_session, eraseS, ht]

/-- Witness for C9 at concrete inputs: destroying the unknown token "tok"
in the empty store is a no-op, and alice's store keeps key "other" intact
when "tok" is destroyed. -/
theorem c9_witness :
    (emptyStore "tok" = none ∧ destroy_session "tok" emptyStore = emptyStore)
    ∧ ("other" : String) ≠ "tok"
    ∧ destroy_session "tok" storeAlice "other" = storeAlice "other" :=
  ⟨⟨rfl, (c9_destroy_idempotent "tok" emptyStore).2.1 rfl⟩,
   by decide,
   (c9_destroy_idempotent "tok" storeAlice).2.2.2 "other" (by decide)⟩

/-- C3: `validate_session` on a (nonempty) token whose stored session has
`expires_at` in the past deletes that entry and returns absent (lazy
expiry); in particular, for a session created with duration 0 the token is
expired from any strictly later observation time on, so the very next
`validate_session` (the clock having advanced) returns absent and removes
the entry from the store. -/
theorem c3_lazy_expiry :
    (∀ (s : Store) (token : String) (r : SessionRec) (t : Nat),
      token ≠ "" → s token = some r → r.expires_at < t →
      validate_session t token s = (none, eraseS token s))
    ∧ (∀ (s : Store) (token u : String) (t0 t : Nat),
      token ≠ "" → t0 < t →
      validate_session t token (create_session 0 token u t0 s).2
        = (none, eraseS token (create_session 0 token u t0 s).2)) := by
  constructor
  · intro s token r t hne hlook hexp
    simp [validate_session, hne, hlook, hexp]
  · intro s token u t0 t hne hlt
    have hlook : (create_session 0 token u t0 s).2 token
        = some ⟨u, t0, t0 + 0⟩ := by
      simp [create_session]
    simp [validate_session, hne, hlook, hlt]

/-- Witness for C3 at concrete inputs: a session for "alice" created with
duration 0 at time 1 validates to absent at time 2, the entry being erased. -/
theorem c3_witness :
    ("tok" : String) ≠ ""
    ∧ (1 : Nat) < 2
    ∧ validate_session 2 "tok" (create_session 0 "tok" "alice" 1 emptyStore).2
        = (none, eraseS "tok" (create_session 0 "tok" "alice" 1 emptyStore).2) :=
  ⟨by decide, by decide,
   c3_lazy_expiry.2 emptyStore "tok" "alice" 1 2 (by decide) (by decide)⟩

/-- C5 round trip: after `create_session`, validating the returned token at
any time up to expiry yields the owning username with the store unchanged;
after a subsequent `destroy_session` of that token, validating it yields
absent. The same token value presented again (the cookie round trip)
validates to the same username until expiry or explicit destroy. -/
theorem c5_round_trip :
    ∀ (d : Nat) (token u : String) (now t : Nat) (s : Store),
      token ≠ "" →
      (t ≤ now + d →
        validate_session t token (create_session d token u now s).2
          = (some u, (create_session d token u now s).2))
      ∧ validate_session t token
            (destroy_session token (create_session d token u now s).2)
          = (none, destroy_session token (create_session d token u now s).2) := by
  intro d token u now t s hne
  constructor
  · intro hle
    have hlook : (create_session d token u now s).2 token
        = some ⟨u, now, now + d⟩ := by
      simp [create_session]
    have hexp : ¬ (⟨u, now, now + d⟩ : SessionRec).expires_at < t :=
      Nat.not_lt.mpr hle
    simp [validate_session, hne, hlook, hexp]
  · have hlook : destroy_session token (create_session d token u now s).2 token
        = none := by
      simp [destroy_session, eraseS]
    simp [validate_session, hne, hlook]

/-- Witness for C5 at the spec's concrete scenario: `create("alice")`, then
`validate` gives "alice"; after `destroy`, `validate` gives absent. -/
theorem c5_witness :
    ("tok" : String) ≠ ""
    ∧ (10 : Nat) ≤ 1 + 24
    ∧ validate_session 10 "tok" (create_session 24 "tok" "alice" 1 emptyStore).2
        = (some "alice", (create_session 24 "tok" "alice" 1 emptyStore).2)
    ∧ validate_session 10 "tok"
          (destroy_session "tok" (create_session 24 "tok" "alice" 1 emptyStore).2)
        = (none, destroy_session "tok" (create_session 24 "tok" "alice" 1 emptyStore).2) :=
  ⟨by decide, by decide,
   (c5_round_trip 24 "tok" "alice" 1 10 emptyStore (by decide)).1 (by decide),
   (c5_round_trip 24 "tok" "alice" 1 10 emptyStore (by decide)).2⟩

/-- C6: `verify_user` returns false (and raises nothing — it is a total
function) when the username is not a key of the credential store, returns
false whenever the stored hash differs from the SHA-256 hash of the
supplied password, and returns true exactly when the username is present
with a stored hash equal to that SHA-256 hash. Determinism is immediate:
`verify_user` is a pure function of the store and the two inputs, and it
returns only a `Bool` (no store), so it mutates nothing. -/
theorem c6_verify_correct :
    ∀ (users : UsersStore) (u p : String),
      (users u = none → verify_user users u p = false)
      ∧ (∀ h, users u = some h → h ≠ sha256hex p →
          verify_user users u p = false)
      ∧ (verify_user users u p = true ↔ users u = some (sha256hex p)) := by
  intro users u p
  refine ⟨?_, ?_, ?_⟩
  · intro hmiss
    simp [verify_user, hmiss]
  · intro h hlook hneq
    simp [verify_user, hlook, hneq]
  · constructor
    · intro htrue
      cases hl : users u with
      | none => simp [verify_user, hl] at htrue
      | some stored =>
        have : stored = sha256hex p := by
          simpa [verify_user, hl] using htrue
        rw [this]
    · intro hl
      simp [verify_user, hl]

/-- Witness for C6 at concrete inputs: an unknown user yields false, and a
stored hash that is not the hash of the supplied password yields false. -/
theorem c6_witness :
    (usersBad "bob" = none ∧ verify_user usersBad "bob" "pw" = false)
    ∧ usersBad "alice" = some "nothash"
    ∧ "nothash" ≠ sha256hex "pw"
    ∧ verify_user usersBad "alice" "pw" = false :=
  ⟨⟨by decide, (c6_verify_correct usersBad "bob" "pw").1 (by decide)⟩,
   by decide, by decide,
   (c6_verify_correct usersBad "alice" "pw").2.1 "nothash" (by decide) (by decide)⟩

/-- C7 counterexample: `verify_user` contains no empty-input rejection at
all — it proceeds straight to the hash comparison and the store lookup. On
a credential store holding a credential under the empty username, the empty
username together with its matching password verifies to `true`, not
`false`: nothing is rejected before lookup. -/
theorem c7_counterexample :
    verify_user usersEmptyName "" "pw" = true := by
  decide

/-- C7 (amended): the code performs no early empty-input rejection; empty
inputs simply fall through to the lookup and hash comparison. For the
shipped credential store `USERS` (usernames "test1" and "test2" with
nonempty passwords) the observable outcome coincides with the claim: an
empty username misses the lookup and an empty password mismatches every
stored hash, so `verify_user` returns false whenever either input is
empty. -/
theorem c7_empty_inputs_rejected_on_shipped_store :
    ∀ (u p : String), u = "" ∨ p = "" → verify_user USERS u p = false := by
  intro u p h
  rcases h with h | h
  · subst h
    simp [verify_user, USERS]
  · subst h
    by_cases h1 : u = "test1"
    · subst h1
      decide
    · by_cases h2 : u = "test2"
      · subst h2
        decide
      · simp [verify_user, USERS, h1, h2]

/-- Witness for C7's amended theorem at concrete inputs: empty username
with nonempty password, and shipped username with empty password, both
verify to false against the shipped store. -/
theorem c7_witness :
    (("" : String) = "" ∨ ("pw" : String) = "")
    ∧ verify_user USERS "" "pw" = false
    ∧ (("test1" : String) = "" ∨ ("" : String) = "")
    ∧ verify_user USERS "test1" "" = false :=
  ⟨Or.inl rfl,
   c7_empty_inputs_rejected_on_shipped_store "" "pw" (Or.inl rfl),
   Or.inr rfl,
   c7_empty_inputs_rejected_on_shipped_store "test1" "" (Or.inr rfl)⟩

/-- C8: `validate_session` is idempotent — running it a second time at the
same observation time on the store it returned yields the same result and
the same final store — and its only possible mutation is the lazy-expiry
deletion: either the returned store is the input store, or the looked-up
token held an expired session and the returned store is exactly the input
store with that single entry erased. -/
theorem c8_validate_idempotent :
    ∀ (t : Nat) (token : String) (s : Store),
      validate_session t token (validate_session t token s).2
        = validate_session t token s
      ∧ ((validate_session t token s).2 = s
         ∨ ∃ r, s token = some r ∧ r.expires_at < t
             ∧ (validate_session t token s).2 = eraseS token s) := by
  intro t token s
  by_cases hne : token = ""
  · subst hne
    constructor
    · simp [validate_session]
    · left
      simp [validate_session]
  · cases hl : s token with
    | none =>
      have h1 : validate_session t token s = (none, s) := by
        simp [validate_session, hne, hl]
      constructor
      · rw [h1]
        exact h1
      · left
        rw [h1]
    | some r =>
      by_cases hexp : r.expires_at < t
      · have h1 : validate_session t token s = (none, eraseS token s) := by
          simp [validate_session, hne, hl, hexp]
        have h2 : eraseS token s token = none := by
          simp [eraseS]
        constructor
        · rw [h1]
          simp [validate_session, hne, h2, h1]
        · right
          exact ⟨r, rfl, hexp, by rw [h1]⟩
      · have h1 : validate_session t token s = (some r.username, s) := by
          simp [validate_session, hne, hl, hexp]
        constructor
        · rw [h1]
          exact h1
        · left
          rw [h1]

/-- C10: `create_session` takes no credential store at all — its type shows
it cannot consult one — so no membership or authentication check is
performed on the username. For every string `u`, including the empty string
and usernames absent from `USERS`, it inserts a session for `u` under the
generated token, and `validate_session` maps that token back to `u` at any
time up to expiry. -/
theorem c10_create_unchecked :
    ∀ (d : Nat) (token u : String) (now t : Nat) (s : Store),
      token ≠ "" → t ≤ now + d →
      (create_session d token u now s).2 token
        = some { username := u, created_at := now, expires_at := now + d }
      ∧ (validate_session t token (create_session d token u now s).2).1
        = some u := by
  intro d token u now t s hne hle
  have hlook : (create_session d token u now s).2 token
      = some ⟨u, now, now + d⟩ := by
    simp [create_session]
  refine ⟨hlook, ?_⟩
  have hexp : ¬ (⟨u, now, now + d⟩ : SessionRec).expires_at < t :=
    Nat.not_lt.mpr hle
  simp [validate_session, hne, hlook, hexp]

/-- Witness for C10 at concrete inputs: the empty username — certainly not
a provisioned user — gets a session that validates back to it. -/
theorem c10_witness :
    ("tok" : String) ≠ ""
    ∧ (3 : Nat) ≤ 1 + 24
    ∧ (validate_session 3 "tok" (create_session 24 "tok" "" 1 emptyStore).2).1
        = some "" :=
  ⟨by decide, by decide,
   (c10_create_unchecked 24 "tok" "" 1 3 emptyStore (by decide) (by decide)).2⟩

end StreamlitAuth
